import Mathlib

/-!
Verification of the billy scraper/record framework (billy.scrape): record
types (Vote, Bill, Committee), their builder methods and validation, the
scraper base-class helpers (validate_object, validate_term, construction
check), the save operations (save_bill, save_vote, save_committee) and the
plugin registry lookup (get_scraper).

Python dictionaries are embedded as structures; keys that a record may lack
are Option fields (none models an absent key).  Python exceptions are the
PyError inductive; fallible operations return Except PyError.  File writes
are modelled by the (subdirectory, filename, record) triple a save would
serialize.  External collaborators that are not part of the framework code
(the get_sessions metadata helper, the JSON-schema validator and its schema
files) are modelled as parameters or as succeeding, each marked in its doc
comment.
-/

/-- Python exceptions raised by the framework.  keyError models a dict
lookup of a missing key; valueError is the validation-failure type;
noDataForPeriod and scrapeError are the framework's own classes
(scrapeError carries a message and the optional wrapped original cause);
exception is Python's bare Exception.  configurationError is modelled from
the spec's error taxonomy: no such class exists in the source, the
constructor only lets us state claims that mention it. -/
inductive PyError where
  | keyError : String → PyError
  | valueError : String → PyError
  | noDataForPeriod : String → PyError
  | scrapeError : String → Option String → PyError
  | exception : String → PyError
  | configurationError : String → PyError
  deriving DecidableEq, Repr

/-- True exactly on the configurationError constructor. -/
def PyError.isConfigurationError : PyError → Bool
  | PyError.configurationError _ => true
  | _ => false

instance {ε α : Type} [DecidableEq ε] [DecidableEq α] :
    DecidableEq (Except ε α) := fun a b =>
  match a, b with
  | Except.ok x, Except.ok y =>
      match decEq x y with
      | isTrue h => isTrue (by rw [h])
      | isFalse h => isFalse (fun he => h (Except.ok.inj he))
  | Except.error x, Except.error y =>
      match decEq x y with
      | isTrue h => isTrue (by rw [h])
      | isFalse h => isFalse (fun he => h (Except.error.inj he))
  | Except.ok _, Except.error _ => isFalse (fun h => Except.noConfusion h)
  | Except.error _, Except.ok _ => isFalse (fun h => Except.noConfusion h)

/-- A provenance entry appended by add_source: dict(url=url, retrieved=retrieved). -/
structure SourceEntry where
  url : String
  retrieved : String
  deriving DecidableEq, Repr

/-- billy.scrape.votes.Vote, a SourcedObject dict.  The keys the
constructor always sets are plain fields; session, bill_id and state are
only present when passed as extra keyword arguments (or later assigned by
the plugin), hence Option fields. -/
structure Vote where
  _type : String
  sources : List SourceEntry
  chamber : String
  date : String
  motion : String
  passed : Bool
  yes_count : Nat
  no_count : Nat
  other_count : Nat
  type : String
  yes_votes : List String
  no_votes : List String
  other_votes : List String
  session : Option String
  bill_id : Option String
  state : Option String
  deriving DecidableEq, Repr

/-- Vote.__init__(chamber, date, motion, passed, yes_count, no_count,
other_count, type='other', **kwargs).  SourcedObject.__init__ sets
_type='vote' and sources=[]; the three extra keyword arguments modelled
are the ones the save/validate paths read (session, bill_id, state);
the three named-voter lists start empty. -/
def Vote.init (chamber date motion : String) (passed : Bool)
    (yes_count no_count other_count : Nat) (type : String)
    (kw_session kw_bill_id kw_state : Option String) : Vote :=
  { _type := "vote"
    sources := []
    chamber := chamber
    date := date
    motion := motion
    passed := passed
    yes_count := yes_count
    no_count := no_count
    other_count := other_count
    type := type
    yes_votes := []
    no_votes := []
    other_votes := []
    session := kw_session
    bill_id := kw_bill_id
    state := kw_state }

/-- Vote.yes: appends the legislator to yes_votes. -/
def Vote.yes (v : Vote) (legislator : String) : Vote :=
  { v with yes_votes := v.yes_votes ++ [legislator] }

/-- Vote.no: appends the legislator to no_votes. -/
def Vote.no (v : Vote) (legislator : String) : Vote :=
  { v with no_votes := v.no_votes ++ [legislator] }

/-- Vote.other: appends the legislator to other_votes. -/
def Vote.other (v : Vote) (legislator : String) : Vote :=
  { v with other_votes := v.other_votes ++ [legislator] }

/-- SourcedObject.add_source on a Vote: appends dict(url, retrieved) to sources. -/
def Vote.add_source (v : Vote) (url retrieved : String) : Vote :=
  { v with sources := v.sources ++ [⟨url, retrieved⟩] }

/-- The count-check stage of Vote.validate (votes.py lines 127-135): if any
of the three named-voter lists is non-empty, each list length must equal
its count field, checked in yes/no/other order. -/
def Vote.validate_counts (v : Vote) : Except PyError Unit :=
  if v.yes_votes ≠ [] ∨ v.no_votes ≠ [] ∨ v.other_votes ≠ [] then
    if v.yes_votes.length ≠ v.yes_count then
      Except.error (PyError.valueError "bad yes_vote count")
    else if v.no_votes.length ≠ v.no_count then
      Except.error (PyError.valueError "bad no_vote count")
    else if v.other_votes.length ≠ v.other_count then
      Except.error (PyError.valueError "bad other_vote count")
    else Except.ok ()
  else Except.ok ()

/-- Vote.validate(standalone=True).  super().validate() is a no-op (Vote
declares no schema attribute).  In standalone mode the code first runs the
JSON-schema check against vote.json — schema file and DatetimeValidator are
not under src/, modelled from the spec as succeeding — then evaluates
self['session'] (KeyError when absent), get_sessions(self['state'])
(KeyError on the state lookup when absent; get_sessions from
billy.scrape.utils is not under src/ and is the get_sessions parameter,
per the spec the jurisdiction's known sessions) and raises ValueError on an
unknown session.  Both modes end with the count checks. -/
def Vote.validate (v : Vote) (get_sessions : String → List String)
    (standalone : Bool) : Except PyError Unit :=
  if standalone then
    match v.session with
    | none => Except.error (PyError.keyError "session")
    | some session =>
      match v.state with
      | none => Except.error (PyError.keyError "state")
      | some st =>
        if session ∈ get_sessions st then v.validate_counts
        else Except.error (PyError.valueError ("bad session: " ++ session))
  else v.validate_counts

/-- Empty jurisdiction session table, used where the session check is not reached. -/
def no_sessions : String → List String := fun _ => []

/-- A sponsorship entry appended by Bill.add_sponsor: dict(type, name). -/
structure Sponsor where
  type : String
  name : String
  deriving DecidableEq, Repr

/-- A document or version entry: dict(name, url). -/
structure NamedUrl where
  name : String
  url : String
  deriving DecidableEq, Repr

/-- An action entry appended by Bill.add_action: dict(actor, action, date, type). -/
structure ActionEntry where
  actor : String
  action : String
  date : String
  type : List String
  deriving DecidableEq, Repr

/-- billy.scrape.bills.Bill, a SourcedObject dict.  The constructor sets
every field below except state, which is absent until save_bill stamps it
(or the plugin assigns it). -/
structure Bill where
  _type : String
  sources : List SourceEntry
  session : String
  chamber : String
  bill_id : String
  title : String
  sponsors : List Sponsor
  votes : List Vote
  versions : List NamedUrl
  actions : List ActionEntry
  documents : List NamedUrl
  alternate_titles : List String
  type : List String
  state : Option String
  deriving DecidableEq, Repr

/-- Python truthiness and coercion of the 'type' keyword argument of
Bill.__init__: absent, None or empty gives ['bill'], a string s gives [s]
(a one-element list here), any other sequence is taken as a list. -/
def bill_type_of_kwarg : Option (List String) → List String
  | none => ["bill"]
  | some [] => ["bill"]
  | some l => l

/-- Bill.__init__(session, chamber, bill_id, title, **kwargs).
SourcedObject.__init__ sets _type='bill' and sources=[]; all builder
sequences start empty; the 'type' keyword argument is normalized by
bill_type_of_kwarg; the state key is not set by the constructor. -/
def Bill.init (session chamber bill_id title : String)
    (kw_type : Option (List String)) : Bill :=
  { _type := "bill"
    sources := []
    session := session
    chamber := chamber
    bill_id := bill_id
    title := title
    sponsors := []
    votes := []
    versions := []
    actions := []
    documents := []
    alternate_titles := []
    type := bill_type_of_kwarg kw_type
    state := none }

/-- SourcedObject.add_source on a Bill. -/
def Bill.add_source (b : Bill) (url retrieved : String) : Bill :=
  { b with sources := b.sources ++ [⟨url, retrieved⟩] }

/-- Bill.add_sponsor(type, name): appends dict(type, name) to sponsors. -/
def Bill.add_sponsor (b : Bill) (type name : String) : Bill :=
  { b with sponsors := b.sponsors ++ [⟨type, name⟩] }

/-- Bill.add_document(name, url): appends dict(name, url) to documents. -/
def Bill.add_document (b : Bill) (name url : String) : Bill :=
  { b with documents := b.documents ++ [⟨name, url⟩] }

/-- Bill.add_version(name, url): appends dict(name, url) to versions. -/
def Bill.add_version (b : Bill) (name url : String) : Bill :=
  { b with versions := b.versions ++ [⟨name, url⟩] }

/-- Python normalization of add_action's type argument: absent/None/empty
gives ['other'], a string gives a one-element list, a sequence stays. -/
def action_type_of_arg : Option (List String) → List String
  | none => ["other"]
  | some [] => ["other"]
  | some l => l

/-- Bill.add_action(actor, action, date, type=None): appends
dict(actor, action, date, type) with the type normalized. -/
def Bill.add_action (b : Bill) (actor action date : String)
    (type : Option (List String)) : Bill :=
  { b with actions := b.actions ++ [⟨actor, action, date, action_type_of_arg type⟩] }

/-- Bill.add_vote(vote): appends the Vote object to votes. -/
def Bill.add_vote (b : Bill) (vote : Vote) : Bill :=
  { b with votes := b.votes ++ [vote] }

/-- Bill.add_title(title): appends to alternate_titles. -/
def Bill.add_title (b : Bill) (title : String) : Bill :=
  { b with alternate_titles := b.alternate_titles ++ [title] }

/-- The loop at the end of Bill.validate: each embedded vote is validated
in embedded mode (standalone=False); the first failure propagates. -/
def validate_votes_embedded (get_sessions : String → List String) :
    List Vote → Except PyError Unit
  | [] => Except.ok ()
  | v :: rest =>
    match v.validate get_sessions false with
    | Except.ok () => validate_votes_embedded get_sessions rest
    | Except.error e => Except.error e

/-- Bill.validate: super().validate() runs the JSON-schema check against
bill.json — schema file and DatetimeValidator are not under src/, modelled
from the spec as succeeding — then the session must be one of
get_sessions(self['state']) (KeyError when the state key is absent,
ValueError 'bad session' when unknown), then each embedded vote is
validated in embedded mode. -/
def Bill.validate (b : Bill) (get_sessions : String → List String) :
    Except PyError Unit :=
  match b.state with
  | none => Except.error (PyError.keyError "state")
  | some st =>
    if b.session ∈ get_sessions st then validate_votes_embedded get_sessions b.votes
    else Except.error (PyError.valueError "bad session")

/-- A committee member entry appended by add_member: dict(name, role). -/
structure Member where
  name : String
  role : String
  deriving DecidableEq, Repr

/-- billy.scrape.committees.Committee, a SourcedObject dict.  The
subcommittee field is doubly optional: the outer Option models whether the
dict key is present at all (the constructor always sets it), the inner
Option models the Python value None versus a string. -/
structure Committee where
  _type : String
  sources : List SourceEntry
  chamber : String
  committee : String
  subcommittee : Option (Option String)
  members : List Member
  state : Option String
  deriving DecidableEq, Repr

/-- Committee.__init__(chamber, committee, subcommittee=None, **kwargs).
SourcedObject.__init__ sets _type='committee' and sources=[]; the
subcommittee KEY is always assigned, even when the value is None; members
comes from kwargs.get('members', []). -/
def Committee.init (chamber committee : String) (subcommittee : Option String)
    (kw_members : Option (List Member)) : Committee :=
  { _type := "committee"
    sources := []
    chamber := chamber
    committee := committee
    subcommittee := some subcommittee
    members := kw_members.getD []
    state := none }

/-- SourcedObject.add_source on a Committee. -/
def Committee.add_source (c : Committee) (url retrieved : String) : Committee :=
  { c with sources := c.sources ++ [⟨url, retrieved⟩] }

/-- Committee.add_member(legislator, role='member'): appends dict(name, role). -/
def Committee.add_member (c : Committee) (legislator role : String) : Committee :=
  { c with members := c.members ++ [⟨legislator, role⟩] }

/-- Committee inherits SourcedObject.validate, which runs the JSON-schema
check against committee.json.  Modelled from the spec: the schema file and
DatetimeValidator are not under src/, so the check is modelled as
succeeding. -/
def Committee.validate (_c : Committee) : Except PyError Unit :=
  Except.ok ()

/-- Scraper.validate_object(obj): obj.validate() runs; a ValueError is
caught, its message logged as a warning, and re-raised exactly when
strict_validation is set; any other exception propagates uncaught.  The
argument is the outcome of obj.validate(); the result is the list of
warning messages logged paired with the call's own outcome. -/
def Scraper.validate_object (strict : Bool) (res : Except PyError Unit) :
    List String × Except PyError Unit :=
  match res with
  | Except.ok () => ([], Except.ok ())
  | Except.error (PyError.valueError m) =>
      ([m], if strict then Except.error (PyError.valueError m) else Except.ok ())
  | Except.error e => ([], Except.error e)

/-- One term of the jurisdiction metadata: a name and its sessions. -/
structure Term where
  name : String
  sessions : List String
  deriving DecidableEq, Repr

/-- Jurisdiction metadata (external read-only input): the terms sequence. -/
structure Metadata where
  terms : List Term
  deriving DecidableEq, Repr

/-- Scraper.validate_term(term, latest_only=False): with latest_only the
term must equal self.metadata['terms'][-1]['name'] (the final list entry;
Python raises IndexError on an empty list, modelled as the exception
case); otherwise any term name in the list is accepted; unknown terms
raise NoDataForPeriod(term). -/
def Scraper.validate_term (md : Metadata) (term : String) (latest_only : Bool) :
    Except PyError Bool :=
  if latest_only then
    match md.terms.getLast? with
    | none => Except.error (PyError.exception "list index out of range")
    | some t =>
      if term = t.name then Except.ok true
      else Except.error (PyError.noDataForPeriod term)
  else
    if md.terms.any (fun t => term = t.name) then Except.ok true
    else Except.error (PyError.noDataForPeriod term)

/-- The state-attribute check of Scraper.__init__: a concrete scraper class
that does not declare a state attribute makes construction raise the bare
Exception('Scrapers must have a state attribute'); the argument is the
class's state attribute when declared. -/
def Scraper.init_state_check (state : Option String) : Except PyError Unit :=
  match state with
  | none => Except.error (PyError.exception "Scrapers must have a state attribute")
  | some _ => Except.ok ()

/-- The file a save operation serializes: the kind-specific output
subdirectory, the filename, and the record written as JSON. -/
structure SavedFile (α : Type) where
  subdir : String
  filename : String
  record : α
  deriving DecidableEq, Repr

/-- BillScraper.save_bill(bill): logs, stamps bill['state'] = self.state,
calls validate_object (whose ValueError policy depends on
strict_validation), then writes session_chamber_billid.json under the
bills subdirectory.  The ascii 'replace' re-encoding of the filename is
the identity on the ascii strings modelled here.  Result: the warnings
logged, and either the propagated error or the file written. -/
def BillScraper.save_bill (state : String) (strict : Bool)
    (get_sessions : String → List String) (bill : Bill) :
    List String × Except PyError (SavedFile Bill) :=
  let bill := { bill with state := some state }
  let vo := Scraper.validate_object strict (bill.validate get_sessions)
  match vo.2 with
  | Except.error e => (vo.1, Except.error e)
  | Except.ok () =>
      (vo.1, Except.ok
        { subdir := "bills"
          filename := bill.session ++ "_" ++ bill.chamber ++ "_" ++ bill.bill_id ++ ".json"
          record := bill })

/-- VoteScraper.save_vote(vote): the filename
session_chamber_billid_seqN.json is built first — evaluating
vote['session'] and then vote['bill_id'], each a KeyError when absent —
with N the scraper's per-instance counter; then validate_object runs
(Vote.validate in standalone mode), then the file is written under the
votes subdirectory.  The state key is never assigned here. -/
def VoteScraper.save_vote (_state : String) (strict : Bool)
    (get_sessions : String → List String) (seq : Nat) (vote : Vote) :
    List String × Except PyError (SavedFile Vote) :=
  match vote.session with
  | none => ([], Except.error (PyError.keyError "session"))
  | some session =>
    match vote.bill_id with
    | none => ([], Except.error (PyError.keyError "bill_id"))
    | some bill_id =>
      let filename :=
        session ++ "_" ++ vote.chamber ++ "_" ++ bill_id ++ "_seq" ++ toString seq ++ ".json"
      let vo := Scraper.validate_object strict (vote.validate get_sessions true)
      match vo.2 with
      | Except.error e => (vo.1, Except.error e)
      | Except.ok () =>
          (vo.1, Except.ok { subdir := "votes", filename := filename, record := vote })

/-- Python str(x) for the value of an optional dict entry: None prints as
'None'. -/
def py_str_opt : Option String → String
  | none => "None"
  | some s => s

/-- Python str.replace('/', ',') on ascii strings: every slash character
becomes a comma. -/
def py_replace_slash_comma (s : String) : String :=
  String.mk (s.data.map (fun c => if c = '/' then ',' else c))

/-- CommitteeScraper.save_committee(committee): the name starts as
committee['committee'] and, when the subcommittee KEY is present, gets
'_%s' % value appended (str of None is 'None'); then committee['state'] =
self.state is stamped, validate_object runs, and the file
chamber_name.json — slashes in the name replaced by commas — is written
under the committees subdirectory. -/
def CommitteeScraper.save_committee (state : String) (strict : Bool)
    (committee : Committee) :
    List String × Except PyError (SavedFile Committee) :=
  let name :=
    match committee.subcommittee with
    | some sub => committee.committee ++ "_" ++ py_str_opt sub
    | none => committee.committee
  let committee := { committee with state := some state }
  let vo := Scraper.validate_object strict committee.validate
  match vo.2 with
  | Except.error e => (vo.1, Except.error e)
  | Except.ok () =>
      (vo.1, Except.ok
        { subdir := "committees"
          filename := committee.chamber ++ "_" ++ py_replace_slash_comma name ++ ".json"
          record := committee })

/-- The process-wide scraper registry _scraper_registry: entries
(state, scraper_type, class); lookup takes the most recent registration
for a key.  A class is identified by its name. -/
def Registry : Type := List (String × String × String)

/-- ScraperMeta.__new__: a freshly defined class is registered under
(state, scraper_type) exactly when it declares both attributes; abstract
bases missing one are not registered. -/
def ScraperMeta.register (reg : Registry) (state scraper_type : Option String)
    (classname : String) : Registry :=
  match state, scraper_type with
  | some s, some t => (s, t, classname) :: reg
  | _, _ => reg

/-- _scraper_registry[state][scraper_type]: defaultdict lookup, a missing
state or scraper_type key is a KeyError (a none result here). -/
def registry_lookup (reg : Registry) (state scraper_type : String) :
    Option String :=
  (List.find? (fun e => e.1 = state ∧ e.2.1 = scraper_type) reg).map (fun e => e.2.2)

/-- billy.scrape.get_scraper(mod_path, state, scraper_type): imports
'%s.%s' % (mod_path, scraper_type) — the import outcome (an ImportError
message, or the registry contents after the module's registration side
effects) is the import_result parameter — wrapping an ImportError in
ScrapeError('could not import ...', e); then pulls the class out of the
registry, a KeyError becoming ScrapeError('no STATE TYPE scraper found')
with no wrapped cause. -/
def get_scraper (import_result : Except String Registry)
    (mod_path state scraper_type : String) : Except PyError String :=
  let full_path := mod_path ++ "." ++ scraper_type
  match import_result with
  | Except.error e =>
      Except.error (PyError.scrapeError ("could not import " ++ full_path) (some e))
  | Except.ok reg =>
    match registry_lookup reg state scraper_type with
    | none =>
        Except.error (PyError.scrapeError
          ("no " ++ state ++ " " ++ scraper_type ++ " scraper found") none)
    | some cls => Except.ok cls

/-- C1: for every Vote, if at least one of yes_votes/no_votes/other_votes
is non-empty, validation succeeds iff all three list lengths equal their
count fields simultaneously, and otherwise raises one of the three
count-mismatch ValueErrors; all three equalities are checked whenever any
one list is non-empty (embedded mode runs exactly this check, and
standalone mode reduces to it once the session check passes). -/
theorem vote_validate_checks_all_counts (v : Vote) (g : String → List String)
    (hne : v.yes_votes ≠ [] ∨ v.no_votes ≠ [] ∨ v.other_votes ≠ []) :
    (Vote.validate v g false = Except.ok () ↔
      (v.yes_votes.length = v.yes_count ∧ v.no_votes.length = v.no_count ∧
        v.other_votes.length = v.other_count))
    ∧ (¬ (v.yes_votes.length = v.yes_count ∧ v.no_votes.length = v.no_count ∧
          v.other_votes.length = v.other_count) →
        (Vote.validate v g false = Except.error (PyError.valueError "bad yes_vote count")
          ∨ Vote.validate v g false = Except.error (PyError.valueError "bad no_vote count")
          ∨ Vote.validate v g false = Except.error (PyError.valueError "bad other_vote count")))
    ∧ (∀ s st : String, v.session = some s → v.state = some st → s ∈ g st →
        Vote.validate v g true = Vote.validate v g false) := by
  have hfalse : Vote.validate v g false = v.validate_counts := rfl
  refine ⟨?_, ?_, ?_⟩
  · rw [hfalse]
    unfold Vote.validate_counts
    rw [if_pos hne]
    split_ifs with h1 h2 h3
    · simp [h1]
    · simp [h2]
    · simp [h3]
    · simp [not_not.mp h1, not_not.mp h2, not_not.mp h3]
  · intro hmis
    rw [hfalse]
    unfold Vote.validate_counts
    rw [if_pos hne]
    split_ifs with h1 h2 h3
    · exact Or.inl rfl
    · exact Or.inr (Or.inl rfl)
    · exact Or.inr (Or.inr rfl)
    · exact absurd ⟨not_not.mp h1, not_not.mp h2, not_not.mp h3⟩ hmis
  · intro s st hs hst hmem
    rw [hfalse]
    simp [Vote.validate, hs, hst, hmem]

/-- A vote with one 'no' name recorded but a wrong yes_count: the named
lists are not all empty, so every count is checked. -/
def c1_vote : Vote :=
  (Vote.init "upper" "2009-01-01" "Final passage" true 1 1 0 "other"
    none none none).no "Smith"

/-- C1 witness: on c1_vote the non-emptiness hypothesis holds, the counts
do not all match, and validation indeed returns a count-mismatch error —
the yes one, although yes_votes itself is empty. -/
theorem vote_validate_checks_all_counts_witness :
    Vote.validate c1_vote no_sessions false
        = Except.error (PyError.valueError "bad yes_vote count")
      ∨ Vote.validate c1_vote no_sessions false
        = Except.error (PyError.valueError "bad no_vote count")
      ∨ Vote.validate c1_vote no_sessions false
        = Except.error (PyError.valueError "bad other_vote count") :=
  (vote_validate_checks_all_counts c1_vote no_sessions
    (Or.inr (Or.inl (by decide)))).2.1 (by decide)

/-- Appends n yes-voter names to a vote. -/
def addYes : Nat → Vote → Vote
  | 0, v => v
  | Nat.succ n, v => addYes n (v.yes ("y" ++ toString n))

/-- Appends n no-voter names to a vote. -/
def addNo : Nat → Vote → Vote
  | 0, v => v
  | Nat.succ n, v => addNo n (v.no ("n" ++ toString n))

/-- Appends n other-voter names to a vote. -/
def addOther : Nat → Vote → Vote
  | 0, v => v
  | Nat.succ n, v => addOther n (v.other ("o" ++ toString n))

/-- The scenario vote: Vote('upper', date, 'Final passage', True, 30, 8, 3). -/
def c4_vote : Vote :=
  Vote.init "upper" "2008-12-07" "Final passage" true 30 8 3 "other" none none none

/-- C4: the scenario vote passes the counts-only validation with no named
voters; after exactly 30 yes(), 8 no() and 3 other() names it still
passes; with only 29 yes() names it fails with the yes count-mismatch
ValueError. -/
theorem vote_final_passage_scenario :
    Vote.validate c4_vote no_sessions false = Except.ok ()
    ∧ Vote.validate (addOther 3 (addNo 8 (addYes 30 c4_vote))) no_sessions false
        = Except.ok ()
    ∧ Vote.validate (addOther 3 (addNo 8 (addYes 29 c4_vote))) no_sessions false
        = Except.error (PyError.valueError "bad yes_vote count") := by
  decide

/-- C5: validate_object logs the ValueError message as a warning whenever
the record's validation fails, re-raises that error exactly when strict
validation is enabled, returns normally when it is disabled, and logs
nothing and returns normally when validation succeeds. -/
theorem validate_object_policy (strict : Bool) (res : Except PyError Unit)
    (m : String) (h : res = Except.error (PyError.valueError m)) :
    (Scraper.validate_object strict res).1 = [m]
    ∧ ((Scraper.validate_object strict res).2 = Except.error (PyError.valueError m)
        ↔ strict = true)
    ∧ (strict = false → (Scraper.validate_object strict res).2 = Except.ok ())
    ∧ Scraper.validate_object strict (Except.ok ()) = ([], Except.ok ()) := by
  subst h
  cases strict <;> simp [Scraper.validate_object]

/-- C5 witness: the policy at strict mode on a concrete failing validation. -/
theorem validate_object_policy_witness :
    (Scraper.validate_object true (Except.error (PyError.valueError "bad session"))).1
        = ["bad session"]
    ∧ ((Scraper.validate_object true (Except.error (PyError.valueError "bad session"))).2
        = Except.error (PyError.valueError "bad session") ↔ true = true)
    ∧ (true = false →
        (Scraper.validate_object true (Except.error (PyError.valueError "bad session"))).2
          = Except.ok ())
    ∧ Scraper.validate_object true (Except.ok ()) = ([], Except.ok ()) :=
  validate_object_policy true (Except.error (PyError.valueError "bad session"))
    "bad session" rfl

/-- C9: the _type tag is 'vote'/'bill'/'committee' at construction, and
every builder mutation method returns the record with only its own target
sequence extended by the single new entry — in particular _type (and every
other field) is unchanged. -/
theorem builder_methods_preserve_type_tag :
    (∀ ch dt mo p yc nc oc ty ks kb kst,
        (Vote.init ch dt mo p yc nc oc ty ks kb kst)._type = "vote")
    ∧ (∀ s ch bid ti kt, (Bill.init s ch bid ti kt)._type = "bill")
    ∧ (∀ ch co sub km, (Committee.init ch co sub km)._type = "committee")
    ∧ (∀ (b : Bill) (u r : String),
        b.add_source u r = { b with sources := b.sources ++ [⟨u, r⟩] })
    ∧ (∀ (b : Bill) (t n : String),
        b.add_sponsor t n = { b with sponsors := b.sponsors ++ [⟨t, n⟩] })
    ∧ (∀ (b : Bill) (n u : String),
        b.add_document n u = { b with documents := b.documents ++ [⟨n, u⟩] })
    ∧ (∀ (b : Bill) (n u : String),
        b.add_version n u = { b with versions := b.versions ++ [⟨n, u⟩] })
    ∧ (∀ (b : Bill) (a ac d : String) (ty : Option (List String)),
        b.add_action a ac d ty
          = { b with actions := b.actions ++ [⟨a, ac, d, action_type_of_arg ty⟩] })
    ∧ (∀ (b : Bill) (v : Vote), b.add_vote v = { b with votes := b.votes ++ [v] })
    ∧ (∀ (b : Bill) (t : String),
        b.add_title t = { b with alternate_titles := b.alternate_titles ++ [t] })
    ∧ (∀ (v : Vote) (n : String), v.yes n = { v with yes_votes := v.yes_votes ++ [n] })
    ∧ (∀ (v : Vote) (n : String), v.no n = { v with no_votes := v.no_votes ++ [n] })
    ∧ (∀ (v : Vote) (n : String),
        v.other n = { v with other_votes := v.other_votes ++ [n] })
    ∧ (∀ (v : Vote) (u r : String),
        v.add_source u r = { v with sources := v.sources ++ [⟨u, r⟩] })
    ∧ (∀ (c : Committee) (n r : String),
        c.add_member n r = { c with members := c.members ++ [⟨n, r⟩] })
    ∧ (∀ (c : Committee) (u r : String),
        c.add_source u r = { c with sources := c.sources ++ [⟨u, r⟩] }) := by
  repeat' apply And.intro
  all_goals intros
  all_goals rfl

/-- C10: the Vote constructor leaves session, bill_id and state exactly as
passed in the extra keyword arguments (absent when not passed); on a vote
built with only the positional arguments, save_vote fails at the filename's
vote['session'] lookup with KeyError, and standalone validation fails at
its vote['session'] lookup with KeyError, rather than completing. -/
theorem vote_init_missing_keys (ch dt mo : String) (p : Bool) (yc nc oc : Nat)
    (ty : String) (ks kb kst : Option String)
    (st : String) (strict : Bool) (g : String → List String) (seq : Nat) :
    (Vote.init ch dt mo p yc nc oc ty ks kb kst).session = ks
    ∧ (Vote.init ch dt mo p yc nc oc ty ks kb kst).bill_id = kb
    ∧ (Vote.init ch dt mo p yc nc oc ty ks kb kst).state = kst
    ∧ (VoteScraper.save_vote st strict g seq
          (Vote.init ch dt mo p yc nc oc ty none none none)).2
        = Except.error (PyError.keyError "session")
    ∧ Vote.validate (Vote.init ch dt mo p yc nc oc ty none none none) g true
        = Except.error (PyError.keyError "session") :=
  ⟨rfl, rfl, rfl, rfl, rfl⟩

/-- Shape of a successful save_bill: the file goes to the bills
subdirectory under session_chamber_billid.json and the record written is
the input with the scraper's state stamped on. -/
lemma save_bill_ok_shape (st : String) (strict : Bool)
    (g : String → List String) (b : Bill) (r : SavedFile Bill)
    (h : (BillScraper.save_bill st strict g b).2 = Except.ok r) :
    r.record = { b with state := some st } ∧ r.subdir = "bills" := by
  simp only [BillScraper.save_bill] at h
  cases hX : (Scraper.validate_object strict
      (Bill.validate { b with state := some st } g)).2 with
  | error e => rw [hX] at h; exact Except.noConfusion h
  | ok u =>
      cases u
      rw [hX] at h
      have he := Except.ok.inj h
      exact ⟨by rw [← he], by rw [← he]⟩

/-- Shape of a successful save_committee: committees subdirectory, record
with the scraper's state stamped on. -/
lemma save_committee_ok_shape (st : String) (strict : Bool)
    (c : Committee) (r : SavedFile Committee)
    (h : (CommitteeScraper.save_committee st strict c).2 = Except.ok r) :
    r.record = { c with state := some st } ∧ r.subdir = "committees" := by
  simp only [CommitteeScraper.save_committee] at h
  cases hX : (Scraper.validate_object strict
      (Committee.validate { c with state := some st })).2 with
  | error e => rw [hX] at h; exact Except.noConfusion h
  | ok u =>
      cases u
      rw [hX] at h
      have he := Except.ok.inj h
      exact ⟨by rw [← he], by rw [← he]⟩

/-- Shape of a successful save_vote: votes subdirectory, and the record
written is the input vote UNCHANGED — no state stamping happens. -/
lemma save_vote_ok_shape (st : String) (strict : Bool)
    (g : String → List String) (seq : Nat) (v : Vote) (r : SavedFile Vote)
    (h : (VoteScraper.save_vote st strict g seq v).2 = Except.ok r) :
    r.record = v ∧ r.subdir = "votes" := by
  simp only [VoteScraper.save_vote] at h
  cases hs : v.session with
  | none => rw [hs] at h; exact Except.noConfusion h
  | some s =>
      rw [hs] at h
      cases hb : v.bill_id with
      | none => rw [hb] at h; exact Except.noConfusion h
      | some bid =>
          rw [hb] at h
          cases hX : (Scraper.validate_object strict (v.validate g true)).2 with
          | error e => rw [hX] at h; exact Except.noConfusion h
          | ok u =>
              cases u
              rw [hX] at h
              have he := Except.ok.inj h
              exact ⟨by rw [← he], by rw [← he]⟩

/-- A vote carrying session and bill_id keyword fields (as a plugin would
pass them), but no state key. -/
def c2_vote : Vote :=
  Vote.init "upper" "2009-01-01" "Final passage" true 0 0 0 "other"
    (some "S1") (some "HB 1") none

/-- A session table on which session S1 is valid for every jurisdiction. -/
def c2_sessions : String → List String := fun _ => ["S1"]

/-- C2 counterexample: save_vote does NOT stamp the scraper's state onto
the record.  On a vote without a state key, save_vote dies inside
standalone validation with KeyError 'state' — the very key the claim says
the operation stamps before validating — while the identical call on the
same vote with the state pre-assigned succeeds, so the stamping alone is
what is missing. -/
theorem save_vote_does_not_stamp_cex :
    (VoteScraper.save_vote "zz" false c2_sessions 0 c2_vote).2
      = Except.error (PyError.keyError "state")
    ∧ (VoteScraper.save_vote "zz" false c2_sessions 0
          { c2_vote with state := some "zz" }).2
      = Except.ok { subdir := "votes", filename := "S1_upper_HB 1_seq0.json",
                    record := { c2_vote with state := some "zz" } } := by
  decide

/-- C2 amended: save_bill and save_committee stamp the scraper's state
onto the record before validate_object and serialize the stamped record
into their kind-specific subdirectory; save_vote serializes the record
unchanged into the votes subdirectory without stamping the state. -/
theorem save_operations_stamp_state (st : String) (strict : Bool)
    (g : String → List String) (b : Bill) (c : Committee) (seq : Nat) (v : Vote)
    (rb : SavedFile Bill) (rc : SavedFile Committee) (rv : SavedFile Vote)
    (hb : (BillScraper.save_bill st strict g b).2 = Except.ok rb)
    (hc : (CommitteeScraper.save_committee st strict c).2 = Except.ok rc)
    (hv : (VoteScraper.save_vote st strict g seq v).2 = Except.ok rv) :
    rb.record.state = some st ∧ rb.subdir = "bills"
    ∧ rc.record.state = some st ∧ rc.subdir = "committees"
    ∧ rv.record = v ∧ rv.subdir = "votes" := by
  have h1 := save_bill_ok_shape st strict g b rb hb
  have h2 := save_committee_ok_shape st strict c rc hc
  have h3 := save_vote_ok_shape st strict g seq v rv hv
  exact ⟨by rw [h1.1], h1.2, by rw [h2.1], h2.2, h3.1, h3.2⟩

/-- A bill as a plugin would build it. -/
def c2_bill : Bill := Bill.init "S1" "upper" "HB 1" "An act" none

/-- A committee as a plugin would build it. -/
def c2_committee : Committee := Committee.init "upper" "Education" none none

/-- The vote of c2_vote with the state assigned by the plugin, so that
standalone validation inside save_vote can succeed. -/
def c2_vote_stamped : Vote := { c2_vote with state := some "zz" }

/-- C2 witness: concrete successful saves of a bill, a committee and a
vote, with the stamped/unchanged records and subdirectories observed. -/
theorem save_operations_stamp_state_witness :
    ({ subdir := "bills", filename := "S1_upper_HB 1.json",
       record := { c2_bill with state := some "zz" } } : SavedFile Bill).record.state
        = some "zz"
    ∧ ({ subdir := "bills", filename := "S1_upper_HB 1.json",
         record := { c2_bill with state := some "zz" } } : SavedFile Bill).subdir = "bills"
    ∧ ({ subdir := "committees", filename := "upper_Education_None.json",
         record := { c2_committee with state := some "zz" } } : SavedFile Committee).record.state
        = some "zz"
    ∧ ({ subdir := "committees", filename := "upper_Education_None.json",
         record := { c2_committee with state := some "zz" } } : SavedFile Committee).subdir
        = "committees"
    ∧ ({ subdir := "votes", filename := "S1_upper_HB 1_seq0.json",
         record := c2_vote_stamped } : SavedFile Vote).record = c2_vote_stamped
    ∧ ({ subdir := "votes", filename := "S1_upper_HB 1_seq0.json",
         record := c2_vote_stamped } : SavedFile Vote).subdir = "votes" :=
  save_operations_stamp_state "zz" false c2_sessions c2_bill c2_committee 0
    c2_vote_stamped _ _ _ (by decide) (by decide) (by decide)

/-- Metadata whose term list is not in lexicographic order: the list ends
with 'a' although 'b' is the lexicographically larger name. -/
def c3_metadata : Metadata := { terms := [⟨"b", []⟩, ⟨"a", []⟩] }

/-- C3 counterexample: with latest_only, validate_term keys on the
POSITIONALLY last list entry, not the lexically-last term: on a term list
named [b, a] (where a < b, so b is the lexically-last name) the code
rejects 'b' with NoDataForPeriod even though 'b' is a valid term without
latest_only, and accepts 'a'. -/
theorem validate_term_lexical_cex :
    c3_metadata.terms.map Term.name = ["b", "a"]
    ∧ "a" < "b"
    ∧ Scraper.validate_term c3_metadata "b" false = Except.ok true
    ∧ Scraper.validate_term c3_metadata "b" true
        = Except.error (PyError.noDataForPeriod "b")
    ∧ Scraper.validate_term c3_metadata "a" true = Except.ok true := by
  refine ⟨by decide, ?_, by decide, by decide, by decide⟩
  rw [String.lt_iff_toList_lt]
  decide

/-- C3 amended: validate_term(term, latest_only=True) succeeds exactly
when term equals the name of the FINAL entry of the metadata's term list
(the most recent term, regardless of lexicographic order), and raises
NoDataForPeriod(term) for every other term, including terms that are
valid without latest_only. -/
theorem validate_term_latest_only (md : Metadata) (term : String) (t : Term)
    (h : md.terms.getLast? = some t) :
    (Scraper.validate_term md term true = Except.ok true ↔ term = t.name)
    ∧ (term ≠ t.name →
        Scraper.validate_term md term true
          = Except.error (PyError.noDataForPeriod term)) := by
  simp only [Scraper.validate_term, if_true, h]
  split_ifs with ht
  · exact ⟨by simp [ht], fun hne => absurd ht hne⟩
  · exact ⟨by simp [ht], fun _ => rfl⟩

/-- A two-term metadata, most recent term T2. -/
def c3_metadata_ok : Metadata := { terms := [⟨"T1", ["S1"]⟩, ⟨"T2", ["S2"]⟩] }

/-- C3 witness: on the concrete two-term metadata, the formerly valid term
T1 is rejected under latest_only. -/
theorem validate_term_latest_only_witness :
    c3_metadata_ok.terms.getLast? = some ⟨"T2", ["S2"]⟩
    ∧ Scraper.validate_term c3_metadata_ok "T1" true
        = Except.error (PyError.noDataForPeriod "T1") :=
  ⟨by decide,
    (validate_term_latest_only c3_metadata_ok "T1" ⟨"T2", ["S2"]⟩ (by decide)).2
      (by decide)⟩

/-- C6 counterexample: a scraper class without a state attribute makes
construction raise the bare Exception('Scrapers must have a state
attribute'), which is not a ConfigurationError — no such class exists in
the source. -/
theorem scraper_init_not_configuration_error :
    Scraper.init_state_check none
      = Except.error (PyError.exception "Scrapers must have a state attribute")
    ∧ PyError.isConfigurationError
        (PyError.exception "Scrapers must have a state attribute") = false :=
  ⟨rfl, rfl⟩

/-- C6 amended: constructing a scraper whose concrete class does not
declare a state attribute fails — with the generic
Exception('Scrapers must have a state attribute'), not a
ConfigurationError — and this check passes for any subclass declaring its
jurisdiction. -/
theorem scraper_init_state_check_amended (st : Option String) :
    (Scraper.init_state_check st = Except.ok () ↔ st.isSome = true)
    ∧ Scraper.init_state_check none
        = Except.error (PyError.exception "Scrapers must have a state attribute") := by
  cases st <;> simp [Scraper.init_state_check]

/-- C7: get_scraper wraps an ImportError of the kind-suffixed module path
in ScrapeError carrying the cause; after a successful import it raises
ScrapeError (no wrapped cause) when no class is registered under the
(jurisdiction, kind) pair, and otherwise returns the registered class. -/
theorem get_scraper_spec (imp : Except String Registry) (mp st k : String) :
    (∀ e, imp = Except.error e →
        get_scraper imp mp st k
          = Except.error (PyError.scrapeError
              ("could not import " ++ (mp ++ "." ++ k)) (some e)))
    ∧ (∀ reg, imp = Except.ok reg → registry_lookup reg st k = none →
        get_scraper imp mp st k
          = Except.error (PyError.scrapeError
              ("no " ++ st ++ " " ++ k ++ " scraper found") none))
    ∧ (∀ reg c, imp = Except.ok reg → registry_lookup reg st k = some c →
        get_scraper imp mp st k = Except.ok c) := by
  refine ⟨?_, ?_, ?_⟩
  · intro e he; subst he; rfl
  · intro reg hr hl; subst hr; simp [get_scraper, hl]
  · intro reg c hr hl; subst hr; simp [get_scraper, hl]

/-- C7 witness: the scenario get_scraper(path, 'zz', 'bills') where the
jurisdiction has no such module — the import fails — yields ScrapeError
wrapping the ImportError. -/
theorem get_scraper_spec_witness :
    get_scraper (Except.error "No module named openstates.zz.bills")
        "openstates.zz" "zz" "bills"
      = Except.error (PyError.scrapeError
          ("could not import " ++ ("openstates.zz" ++ "." ++ "bills"))
          (some "No module named openstates.zz.bills")) :=
  (get_scraper_spec (Except.error "No module named openstates.zz.bills")
      "openstates.zz" "zz" "bills").1 "No module named openstates.zz.bills" rfl

/-- A committee constructed without a subcommittee. -/
def c8_committee : Committee := Committee.init "upper" "Appropriations" none none

/-- C8: the code bug at a committee built without a subcommittee.  The
constructor still sets the subcommittee KEY (to None), so save_committee's
"'subcommittee' in committee" test fires and the filename becomes
chamber_committeename_None.json instead of the chamber_committeename.json
the claim (and the guard's own intent) describe. -/
theorem save_committee_none_suffix :
    c8_committee.subcommittee = some none
    ∧ (CommitteeScraper.save_committee "zz" false c8_committee).2
      = Except.ok { subdir := "committees",
                    filename := "upper_Appropriations_None.json",
                    record := { c8_committee with state := some "zz" } } := by
  decide




